import Mathlib

/-!
Verification of the api-checker-lite upload/poll/fetch workflow.

The definitions below are shallow embeddings of the TypeScript source.
Pure string manipulation is reproduced on `List Char` / `String`, network
effects (DNS resolution, upstream HTTP calls, image fetches) are passed in
as explicit oracle values, and every proxy handler returns both its HTTP
response and the list of upstream calls it performed, so that theorems can
speak about "returns 400 without contacting upstream".
Probabilities are embedded as exact rationals.
-/

namespace ApiChecker

/-! ## JS string operations on character lists -/

/-- Leading-segment test on character lists (the JS `startsWith` core). -/
def leadsL : List Char → List Char → Bool
  | [], _ => true
  | _ :: _, [] => false
  | a :: as, b :: bs => a == b && leadsL as bs

/-- JS `s.startsWith(p)`. -/
def sStartsWith (s p : String) : Bool := leadsL p.data s.data

/-- Substring occurrence on character lists. -/
def occursL (p : List Char) : List Char → Bool
  | [] => leadsL p []
  | c :: cs => leadsL p (c :: cs) || occursL p cs

/-- JS `s.includes(p)`. -/
def sContains (s p : String) : Bool := occursL p.data s.data

/-- JS `s.substring(0, 200)` (the length cap used on upstream error text). -/
def jsTake200 (s : String) : String := ⟨s.data.take 200⟩

/-- JS falsy-or on an optional string: `x || d` (absent or empty falls back). -/
def jsOr (x : Option String) (d : String) : String :=
  match x with
  | some s => if s = "" then d else s
  | none => d

/-- ASCII lower-casing of a string, for the case-insensitive regexes. -/
def lcStr (s : String) : String := ⟨s.data.map Char.toLower⟩

/-- Character class [0-9a-f] under the case-insensitive flag. -/
def isHexDigit (c : Char) : Bool :=
  c.isDigit || ('a' ≤ c && c ≤ 'f') || ('A' ≤ c && c ≤ 'F')

/-- Character class [0-9a-f-] under the case-insensitive flag. -/
def hexDash (c : Char) : Bool := isHexDigit c || c == '-'

/-- Regex `^[0-9]+$`: a non-empty all-digits string. -/
def digitsOnly (s : String) : Bool := !s.data.isEmpty && s.data.all Char.isDigit

/-- JS `parseInt` on an all-digits string. -/
def natOfDigits (l : List Char) : Nat :=
  l.foldl (fun acc c => acc * 10 + (c.toNat - 48)) 0

/-- Node `path.basename`: strip trailing slashes, then keep the part after
the last slash (a path made only of slashes yields "/"). -/
def basenameStr (p : String) : String :=
  if p.data.reverse.dropWhile (fun c => c == '/') = [] then
    (if p.data.isEmpty then "" else "/")
  else
    ⟨((p.data.reverse.dropWhile (fun c => c == '/')).takeWhile (fun c => !(c == '/'))).reverse⟩

/-! ## Session identifier validation (face route, `isValidUuid`) -/

/-- The face route's UUID check: exactly 36 characters, dashes at positions
8, 13, 18 and 23, hexadecimal digits (either case) everywhere else —
the 8-4-4-4-12 canonical UUID grammar. -/
def isValidUuid (s : String) : Bool :=
  s.data.length == 36 &&
    (s.data.enum.all fun pc =>
      if pc.1 = 8 ∨ pc.1 = 13 ∨ pc.1 = 18 ∨ pc.1 = 23 then pc.2 == '-'
      else isHexDigit pc.2)

/-- The face route's strict route-shape pattern, checked on the inbound
path split at slashes. The source tests the regex
`/api/proofly/session/<36 chars of [0-9a-f-]>/face/<digits>` (with the
case-insensitive flag) against the raw path; since no character class in
that pattern can match a slash, the raw path matches exactly when its
slash-separated segments have the shape below. -/
def strictPathOk (parts : List String) : Bool :=
  match parts with
  | [e, a, pr, se, u, fa, fid] =>
    e == "" && lcStr a == "api" && lcStr pr == "proofly" && lcStr se == "session" &&
      u.data.length == 36 && u.data.all hexDash &&
      lcStr fa == "face" && digitsOnly fid
  | _ => false

/-! ## Face lookup (face route, the `faces.find` predicate) -/

/-- A face entry as the proxy sees it: only `face_path` matters
(`none` models both a missing entry and a missing field). -/
structure ProxyFace where
  face_path : Option String

/-- The "suspicious path" allow-list: the path must start with one of the
three storage locations and contain neither ".." nor "//". -/
def facePathAllowed (p : String) : Bool :=
  (sStartsWith p "./storage/original/" || sStartsWith p "/storage/original/" ||
      sStartsWith p "/storage/faces/") &&
    !(sContains p "..") && !(sContains p "//")

/-- The trailing-index capture of the face-path pattern: the path must end
in an underscore, a non-empty digit run, a dot and a non-empty dot-free
tail; the value of the digit run is returned. -/
def trailingIndex (p : String) : Option Nat :=
  let r := p.data.reverse
  let ext := r.takeWhile (fun c => !(c == '.'))
  match r.drop ext.length with
  | '.' :: rest =>
    if ext.isEmpty then none
    else
      let digs := rest.takeWhile Char.isDigit
      match rest.drop digs.length with
      | '_' :: _ => if digs.isEmpty then none else some (natOfDigits digs.reverse)
      | _ => none
  | _ => none

/-- The predicate passed to `faces.find` in the face route: the entry has a
non-empty `face_path`, the path passes the allow-list, and its trailing
numeric segment equals the requested index. -/
def faceMatches (idx : Nat) (f : ProxyFace) : Bool :=
  match f.face_path with
  | none => false
  | some p =>
    if p = "" then false
    else if !facePathAllowed p then false
    else
      match trailingIndex p with
      | some n => n == idx
      | none => false

/-! ## Face route handler -/

/-- Oracle for the upstream session-info request: `fail` models a thrown
request, `ok none` models a body without a `faces` array. -/
inductive SessFetch
  | fail
  | ok (faces : Option (List ProxyFace))

/-- Oracle for the upstream face-image request (content type may be absent). -/
inductive ImgFetch
  | fail
  | ok (contentType : Option String)

inductive FaceResp
  | invalid400
  | notFound404
  | serverError500
  | image200 (contentType : String)
deriving DecidableEq

inductive UpCall
  | sessionInfo (uuid : String)
  | faceImage (filename : String)
deriving DecidableEq

/-- The face route handler. The source receives `request.nextUrl.pathname`
and splits it on "/"; the handler here takes that segment list directly
(segments produced by the split never contain a slash). It returns the
response together with every upstream call performed, in order. -/
def faceRoute (parts : List String) (sess : SessFetch) (img : ImgFetch) :
    FaceResp × List UpCall :=
  if parts.length < 7 then (.serverError500, [])
  else if !(parts.getD 3 "" == "session") then (.serverError500, [])
  else if !(parts.getD 5 "" == "face") then (.serverError500, [])
  else
    let uuid := parts.getD 4 ""
    let faceId := parts.getD 6 ""
    if !isValidUuid uuid then (.invalid400, [])
    else if sContains uuid ".." || sContains (lcStr uuid) "%2e%2e" then (.invalid400, [])
    else if !digitsOnly faceId then (.invalid400, [])
    else
      let faceIndex := natOfDigits faceId.data
      -- the re-check `!uuid || isNaN(faceIndex) || faceIndex < 0` of the
      -- source: only the emptiness test can still act at this point
      if uuid = "" then (.invalid400, [])
      else if !strictPathOk parts then (.invalid400, [])
      else
        match sess with
        | .fail => (.serverError500, [.sessionInfo uuid])
        | .ok none => (.notFound404, [.sessionInfo uuid])
        | .ok (some faces) =>
          if faces.length = 0 then (.notFound404, [.sessionInfo uuid])
          else
            match faces.find? (faceMatches faceIndex) with
            | none => (.notFound404, [.sessionInfo uuid])
            | some f =>
              match f.face_path with
              | none => (.notFound404, [.sessionInfo uuid])
              | some p =>
                if p = "" then (.notFound404, [.sessionInfo uuid])
                else
                  let filename := basenameStr p
                  if filename = "" then (.serverError500, [.sessionInfo uuid])
                  else
                    match img with
                    | .fail => (.serverError500, [.sessionInfo uuid, .faceImage filename])
                    | .ok ct =>
                      (.image200 (jsOr ct "image/jpeg"),
                        [.sessionInfo uuid, .faceImage filename])

/-! ## Status route handler -/

/-- Oracle for the upstream status request: success body, an axios error
carrying an optional response status and data, or a plain thrown error. -/
inductive StatusUp
  | ok (body : String)
  | errResp (status : Option Nat) (data : Option String) (message : String)
  | errPlain (message : String)

structure StatusResp where
  status : Nat
  errorBody : Option String
  body : Option String
deriving DecidableEq

/-- The status route handler. The source performs no validation of the
identifier: it always issues the upstream request, and on an axios error
returns `error.response?.data || error.message` as the error field. -/
def statusRoute (uuid : String) (up : StatusUp) : StatusResp × List String :=
  let call := "https://api.proofly.ai/api/" ++ uuid ++ "/status"
  match up with
  | .ok body => (⟨200, none, some body⟩, [call])
  | .errResp st data msg =>
    (⟨st.getD 500, some (jsOr data msg), none⟩, [call])
  | .errPlain msg => (⟨500, some msg, none⟩, [call])

/-! ## Upload-by-URL route handler -/

/-- The upload-url route's private-address test: only the two loopback
literals are recognised (the source comment reads
"Add additional ranges as needed"). -/
def isPrivateIp (host : String) : Bool := host == "127.0.0.1" || host == "::1"

/-- Modelled from the spec: "resolution to loopback (127.0.0.1, ::1) or any
private range is rejected". This second definition follows the spec's
words (loopback plus the RFC1918 private blocks) to be compared against
`isPrivateIp` from the source. -/
def specPrivateRangeIp (host : String) : Bool :=
  host == "127.0.0.1" || host == "::1" ||
    sStartsWith host "10." || sStartsWith host "192.168." ||
    ["172.16.", "172.17.", "172.18.", "172.19.", "172.20.", "172.21.",
      "172.22.", "172.23.", "172.24.", "172.25.", "172.26.", "172.27.",
      "172.28.", "172.29.", "172.30.", "172.31."].any (fun p => sStartsWith host p)

/-- Oracle for the remote image download: a thrown request, or a response
with a data-presence flag and an optional content type header. -/
inductive UrlFetchRes
  | threw
  | ok (hasData : Bool) (contentType : Option String)

/-- The body attached to a failed upstream upload response: a JSON object
(carried as its stringified form) or text/buffer data. -/
inductive UpData
  | obj (stringified : String)
  | str (s : String)

/-- Oracle for the forwarding upload to the upstream API. -/
inductive ApiUploadRes
  | ok (uuid : String)
  | errResp (status : Option Nat) (data : Option UpData) (message : String)
  | errNoResp (message : String)
  | errPlain (message : String)

inductive UrlCall
  | imageFetch
  | apiUpload
deriving DecidableEq

structure UrlResp where
  status : Nat
  error : String
  details : Option String
deriving DecidableEq

/-- The request as the upload-url handler sees it: the body's `url` field,
the parse result of `new URL(url)` (its protocol, or `none` when parsing
throws), the resolved address of the hostname, and the two network oracles. -/
structure UrlInput where
  url : Option String
  protocol : Option String
  resolvedIp : Option String
  fetch : UrlFetchRes
  upload : ApiUploadRes

/-- The upload-url route handler (`POST`), with its guards in source order:
missing url, scheme restriction, private-address rejection, length cap,
image download, content-type check, forwarding upload. On a failed
forwarding upload, object bodies are relayed stringified and unbounded,
string bodies are cut to 200 characters. -/
def uploadUrlRoute (inp : UrlInput) : UrlResp × List UrlCall :=
  match inp.url with
  | none => (⟨400, "URL not provided", none⟩, [])
  | some u =>
    if u = "" then (⟨400, "URL not provided", none⟩, [])
    else
      let protoOk := match inp.protocol with
        | some p => p == "http:" || p == "https:"
        | none => false
      if !protoOk then (⟨400, "Only http/https URLs are allowed", none⟩, [])
      else
        match inp.resolvedIp with
        | none => (⟨400, "URL resolves to private/local IP", none⟩, [])
        | some ip =>
          if isPrivateIp ip then (⟨400, "URL resolves to private/local IP", none⟩, [])
          else if 512 < u.length then (⟨400, "URL too long", none⟩, [])
          else
            match inp.fetch with
            | .threw => (⟨500, "Failed to download image from URL", none⟩, [.imageFetch])
            | .ok hasData ct =>
              if !hasData then (⟨500, "Error processing URL", none⟩, [.imageFetch])
              else
                let contentType := jsOr ct ""
                if !sStartsWith contentType "image/" then
                  (⟨400, "URL does not point to an image", none⟩, [.imageFetch])
                else
                  match inp.upload with
                  | .ok _ => (⟨200, "", none⟩, [.imageFetch, .apiUpload])
                  | .errResp st data msg =>
                    let details := match data with
                      | some (.obj js) => js
                      | some (.str s) => jsTake200 s
                      | none => msg
                    (⟨st.getD 500, "Error sending URL", some details⟩,
                      [.imageFetch, .apiUpload])
                  | .errNoResp msg =>
                    (⟨500, "Error sending URL", some msg⟩, [.imageFetch, .apiUpload])
                  | .errPlain _ =>
                    (⟨500, "Error processing URL", none⟩, [.imageFetch, .apiUpload])

/-! ## Session status poller (`checkSessionStatus`) -/

/-- The in-flight statuses that keep the polling loop running. -/
def inFlight (s : String) : Bool :=
  s == "processing" || s == "uploading" || s == "in progress"

/-- Outcome of one polling run: a timeout error ("Processing timeout
exceeded"), a transition to results after fetching the full session info
(`results` for completed/done, `resultsNoFaces` for the no-faces toast),
a "processing failed" error, or a silent return on any other status. -/
inductive PollResult
  | timeoutError
  | results
  | resultsNoFaces
  | failedError
  | noTransition
deriving DecidableEq

/-- The polling loop body: while the status is in flight and fewer than 60
attempts were made, wait, query the next status (`statusAt n` is the
result of the (n+1)-th check), count the attempt, and break out early on
"no faces found". The loop runs at most 60 times, so fuel 60 is exact. -/
def pollGo (statusAt : Nat → String) : Nat → String → Nat → String × Nat
  | 0, status, attempts => (status, attempts)
  | fuel + 1, status, attempts =>
    if inFlight status ∧ attempts < 60 then
      let s := statusAt attempts
      if s == "no faces found" then (s, attempts + 1)
      else pollGo statusAt fuel s (attempts + 1)
    else (status, attempts)

/-- The poller: run the loop from the literal initial status "processing",
then throw the timeout error whenever the attempt counter reached 60,
and otherwise dispatch on the final status. -/
def checkSessionStatus (statusAt : Nat → String) : PollResult :=
  let r := pollGo statusAt 60 "processing" 0
  if 60 ≤ r.2 then .timeoutError
  else if r.1 == "completed" || r.1 == "done" then .results
  else if r.1 == "no faces found" then .resultsNoFaces
  else if r.1 == "failed" then .failedError
  else .noTransition

/-! ## Result formatter (`formatAnalysisResults`) -/

structure MetricVal where
  name : String
  probability : ℚ

structure ModelProb where
  model : String
  realProbability : ℚ
  fakeProbability : ℚ
deriving DecidableEq

structure EnsembleProb where
  real : ℚ
  fake : ℚ
deriving DecidableEq

structure AnalysisResult where
  faceIndex : Nat
  facePath : String
  ensembleProbability : EnsembleProb
  modelProbabilities : List ModelProb
  verdict : String
deriving DecidableEq

/-- A face of the session payload, per the declared response type:
`realProbability` and `verdict` are required fields, `ansamble`,
`face_path` and `metrics` optional; `fields` carries the face's dynamic
keyed numeric properties (the open index signature), which is where the
`is_real_model_N` values live when present. Keys are unique, and none of
the declared field names starts with "is_real_model_". -/
structure FFace where
  realProbability : ℚ
  verdict : String
  ansamble : Option ℚ
  face_path : Option String
  metrics : Option (List (String × MetricVal))
  fields : List (String × ℚ)

/-- Property lookup in the dynamic key set (JS `face[key]`). -/
def lookupField : List (String × ℚ) → String → Option ℚ
  | [], _ => none
  | (k, v) :: t, key => if k = key then some v else lookupField t key

/-- `Object.keys(face).some(key => key.startsWith('is_real_model_'))`. -/
def hasModelKeys (fields : List (String × ℚ)) : Bool :=
  fields.any fun kv => sStartsWith kv.1 "is_real_model_"

/-- The verdict thresholds applied when the face carries no verdict. -/
def verdictFor (r : ℚ) : String :=
  if r > 0.95 then "Likely Real"
  else if r > 0.7 then "Probably Real"
  else if r > 0.3 then "Uncertain"
  else if r > 0.05 then "Probably Deepfake"
  else "Likely Deepfake"

/-- The ten-slot model list (`Array.from({length: 10}, ...)`): entries
"Model 1" .. "Model 10" in order, each reading the face's
`is_real_model_N` value, with 0.5 substituted when the field is absent. -/
def tenModels (fields : List (String × ℚ)) : List ModelProb :=
  List.ofFn fun i : Fin 10 =>
    let n := i.1 + 1
    let realProb := (lookupField fields ("is_real_model_" ++ Nat.repr n)).getD (1 / 2 : ℚ)
    ⟨"Model " ++ Nat.repr n, realProb, 1 - realProb⟩

/-- The body of the formatter's map: ensemble score (the `ansamble` field
when present, else `realProbability`), its exact complement, the model
breakdown (ten-slot list when any `is_real_model_` key exists, else the
metrics map when present, else empty), and the verdict (the face's own
when non-empty, else derived from the thresholds). -/
def formatOne (index : Nat) (face : FFace) : AnalysisResult :=
  let ensembleReal : ℚ := match face.ansamble with
    | some a => a
    | none => face.realProbability
  let ensembleFake : ℚ := 1 - ensembleReal
  let modelProbabilities :=
    if hasModelKeys face.fields then tenModels face.fields
    else
      match face.metrics with
      | some ms => ms.map fun kv => ⟨kv.2.name, kv.2.probability, 1 - kv.2.probability⟩
      | none => []
  { faceIndex := index + 1
    facePath := jsOr face.face_path ""
    ensembleProbability := ⟨ensembleReal, ensembleFake⟩
    modelProbabilities := modelProbabilities
    verdict := if face.verdict = "" then verdictFor ensembleReal else face.verdict }

/-- `faces.map((face, index) => ...)` with its running index. -/
def formatFaces : Nat → List FFace → List AnalysisResult
  | _, [] => []
  | i, f :: fs => formatOne i f :: formatFaces (i + 1) fs

/-- The formatter: the empty list when the `faces` field is absent or
empty, else one result per face. -/
def formatAnalysisResults (faces : Option (List FFace)) : List AnalysisResult :=
  match faces with
  | none => []
  | some fs => if fs.length = 0 then [] else formatFaces 0 fs

/-- The fixed valid session identifier used by concrete instantiations. -/
def uuid0 : String := "00000000-0000-0000-0000-000000000000"

/-! ## Lemmas about the polling loop -/

theorem pollGo_exit (statusAt : Nat → String) (fuel : Nat) (status : String)
    (attempts : Nat) (h : inFlight status = false) :
    pollGo statusAt fuel status attempts = (status, attempts) := by
  cases fuel with
  | zero => rfl
  | succ f =>
    have hcond : ¬ (inFlight status ∧ attempts < 60) := by
      rintro ⟨h1, -⟩
      rw [h] at h1
      exact Bool.false_ne_true h1
    simp only [pollGo, if_neg hcond]

theorem inFlight_ne_nff (s : String) (h : inFlight s = true) :
    (s == "no faces found") = false := by
  rcases hb : s == "no faces found" with - | -
  · rfl
  · exfalso
    have hs : s = "no faces found" := eq_of_beq hb
    rw [hs] at h
    exact absurd h (by decide)

theorem pollGo_all_inFlight (statusAt : Nat → String) :
    ∀ fuel status attempts, attempts + fuel = 60 → inFlight status = true →
      (∀ i, attempts ≤ i → i < 59 → inFlight (statusAt i) = true) →
      (pollGo statusAt fuel status attempts).2 = 60 := by
  intro fuel
  induction fuel with
  | zero =>
    intro status attempts h _ _
    have ha : attempts = 60 := by omega
    simp [pollGo, ha]
  | succ f ih =>
    intro status attempts h hin hall
    have hlt : attempts < 60 := by omega
    simp only [pollGo, if_pos (And.intro hin hlt)]
    rcases Nat.lt_or_ge attempts 59 with h59 | h59
    · have hin2 : inFlight (statusAt attempts) = true := hall attempts le_rfl h59
      have hnff := inFlight_ne_nff _ hin2
      simp only [hnff, Bool.false_eq_true, if_false]
      exact ih (statusAt attempts) (attempts + 1) (by omega) hin2
        (fun i hi1 hi2 => hall i (by omega) hi2)
    · have ha : attempts = 59 := by omega
      have hf : f = 0 := by omega
      subst ha; subst hf
      rcases hb : statusAt 59 == "no faces found" with - | -
      · simp only [Bool.false_eq_true, if_false, pollGo]
      · simp

theorem pollGo_first_exit (statusAt : Nat → String) :
    ∀ fuel status attempts k, attempts + fuel = 60 → inFlight status = true →
      attempts ≤ k → k < 59 → inFlight (statusAt k) = false →
      (∀ i, attempts ≤ i → i < k → inFlight (statusAt i) = true) →
      pollGo statusAt fuel status attempts = (statusAt k, k + 1) := by
  intro fuel
  induction fuel with
  | zero =>
    intro status attempts k h _ hak hk _
    omega
  | succ f ih =>
    intro status attempts k h hin hak hk hkf hall
    have hlt : attempts < 60 := by omega
    simp only [pollGo, if_pos (And.intro hin hlt)]
    rcases Nat.eq_or_lt_of_le hak with he | hlt2
    · subst he
      rcases hb : statusAt attempts == "no faces found" with - | -
      · simp only [Bool.false_eq_true, if_false]
        exact pollGo_exit statusAt f (statusAt attempts) (attempts + 1) hkf
      · simp
    · have hin2 : inFlight (statusAt attempts) = true := hall attempts le_rfl hlt2
      have hnff := inFlight_ne_nff _ hin2
      simp only [hnff, Bool.false_eq_true, if_false]
      exact ih (statusAt attempts) (attempts + 1) k (by omega) hin2 hlt2 hk hkf
        (fun i hi1 hi2 => hall i (by omega) hi2)

theorem checkSessionStatus_timeout_iff (statusAt : Nat → String) :
    checkSessionStatus statusAt = PollResult.timeoutError ↔
      ∀ i, i < 59 → inFlight (statusAt i) = true := by
  constructor
  · intro h
    by_contra hex
    push_neg at hex
    obtain ⟨j, hj, hjf⟩ := hex
    have hP : ∃ i, i < 59 ∧ inFlight (statusAt i) = false := by
      refine ⟨j, hj, ?_⟩
      rcases hb : inFlight (statusAt j) with - | -
      · rfl
      · exact absurd hb hjf
    set k := Nat.find hP with hkdef
    obtain ⟨hk59, hkf⟩ := Nat.find_spec hP
    have hmin : ∀ i, i < k → inFlight (statusAt i) = true := by
      intro i hi
      have := Nat.find_min hP hi
      rcases hb : inFlight (statusAt i) with - | -
      · exact absurd (And.intro (by omega) hb) this
      · rfl
    have hrun : pollGo statusAt 60 "processing" 0 = (statusAt k, k + 1) :=
      pollGo_first_exit statusAt 60 "processing" 0 k (by omega) (by decide)
        (Nat.zero_le k) hk59 hkf (fun i _ hi2 => hmin i hi2)
    have hch : checkSessionStatus statusAt =
        (if 60 ≤ (pollGo statusAt 60 "processing" 0).2 then PollResult.timeoutError
         else if (pollGo statusAt 60 "processing" 0).1 == "completed" ||
             (pollGo statusAt 60 "processing" 0).1 == "done" then PollResult.results
         else if (pollGo statusAt 60 "processing" 0).1 == "no faces found" then
           PollResult.resultsNoFaces
         else if (pollGo statusAt 60 "processing" 0).1 == "failed" then
           PollResult.failedError
         else PollResult.noTransition) := rfl
    rw [hch, hrun] at h
    have h60 : ¬ (60 ≤ (statusAt k, k + 1).2) := by
      simp only []
      omega
    rw [if_neg h60] at h
    split at h
    · exact absurd h (by simp)
    · split at h
      · exact absurd h (by simp)
      · split at h
        · exact absurd h (by simp)
        · exact absurd h (by simp)
  · intro hall
    have hrun : (pollGo statusAt 60 "processing" 0).2 = 60 :=
      pollGo_all_inFlight statusAt 60 "processing" 0 (by omega) (by decide)
        (fun i _ hi2 => hall i hi2)
    have hch : checkSessionStatus statusAt =
        (if 60 ≤ (pollGo statusAt 60 "processing" 0).2 then PollResult.timeoutError
         else if (pollGo statusAt 60 "processing" 0).1 == "completed" ||
             (pollGo statusAt 60 "processing" 0).1 == "done" then PollResult.results
         else if (pollGo statusAt 60 "processing" 0).1 == "no faces found" then
           PollResult.resultsNoFaces
         else if (pollGo statusAt 60 "processing" 0).1 == "failed" then
           PollResult.failedError
         else PollResult.noTransition) := rfl
    rw [hch, if_pos (by omega : 60 ≤ (pollGo statusAt 60 "processing" 0).2)]

theorem checkSessionStatus_completed_early (statusAt : Nat → String) (k : Nat)
    (hk : k < 59) (hall : ∀ i, i < k → inFlight (statusAt i) = true)
    (ht : statusAt k = "completed" ∨ statusAt k = "done") :
    checkSessionStatus statusAt = PollResult.results := by
  have hkf : inFlight (statusAt k) = false := by
    rcases ht with ht | ht <;> rw [ht] <;> decide
  have hrun : pollGo statusAt 60 "processing" 0 = (statusAt k, k + 1) :=
    pollGo_first_exit statusAt 60 "processing" 0 k (by omega) (by decide)
      (Nat.zero_le k) hk hkf (fun i _ hi2 => hall i hi2)
  have hch : checkSessionStatus statusAt =
      (if 60 ≤ (pollGo statusAt 60 "processing" 0).2 then PollResult.timeoutError
       else if (pollGo statusAt 60 "processing" 0).1 == "completed" ||
           (pollGo statusAt 60 "processing" 0).1 == "done" then PollResult.results
       else if (pollGo statusAt 60 "processing" 0).1 == "no faces found" then
         PollResult.resultsNoFaces
       else if (pollGo statusAt 60 "processing" 0).1 == "failed" then
         PollResult.failedError
       else PollResult.noTransition) := rfl
  rw [hch, hrun]
  have h60 : ¬ (60 ≤ (statusAt k, k + 1).2) := by
    simp only []
    omega
  rw [if_neg h60]
  have hbeq : ((statusAt k, k + 1).1 == "completed" || (statusAt k, k + 1).1 == "done")
      = true := by
    rcases ht with ht | ht <;> simp [ht]
  rw [if_pos hbeq]

/-- C1 (counterexample): a run whose first 59 checks return "processing" and
whose 60th check returns the terminal status "completed" — observed within
the 60-attempt budget — still ends in the timeout error, not in results,
because the attempt-counter test precedes the status dispatch. -/
theorem c1_counterexample :
    checkSessionStatus (fun i => if i < 59 then "processing" else "completed") =
        PollResult.timeoutError ∧
      checkSessionStatus (fun i => if i < 59 then "processing" else "completed") ≠
        PollResult.results := by
  constructor
  · decide
  · decide

/-- C1 (amended): the poller ends in the "processing timeout exceeded" error
exactly when the first 59 status checks all return a non-terminal status —
regardless of what the 60th check returns; and whenever a terminal
"completed"/"done" is observed within the first 59 checks, the poller
fetches the session info and transitions to results. -/
theorem c1_poller_timeout_boundary (statusAt : Nat → String) :
    (checkSessionStatus statusAt = PollResult.timeoutError ↔
      ∀ i, i < 59 → inFlight (statusAt i) = true) ∧
    (∀ k, k < 59 → (∀ i, i < k → inFlight (statusAt i) = true) →
      statusAt k = "completed" ∨ statusAt k = "done" →
      checkSessionStatus statusAt = PollResult.results) :=
  ⟨checkSessionStatus_timeout_iff statusAt,
    fun k hk hall ht => checkSessionStatus_completed_early statusAt k hk hall ht⟩

/-- C1 (witness): three "processing" checks followed by "completed" on the
fourth check transition to results, by the amended theorem. -/
theorem c1_witness :
    checkSessionStatus (fun i => if i < 3 then "processing" else "completed") =
      PollResult.results := by
  apply (c1_poller_timeout_boundary _).2 3 (by omega)
  · intro i hi
    simp only [if_pos hi]
    decide
  · left
    norm_num

/-! ## Lemmas about the result formatter -/

theorem formatFaces_length (fs : List FFace) : ∀ start, (formatFaces start fs).length = fs.length := by
  induction fs with
  | nil => intro start; rfl
  | cons f t ih => intro start; simp [formatFaces, ih]

theorem formatFaces_getElem? (fs : List FFace) :
    ∀ start i, (formatFaces start fs)[i]? = (fs[i]?).map (fun f => formatOne (start + i) f) := by
  induction fs with
  | nil => intro start i; simp [formatFaces]
  | cons f t ih =>
    intro start i
    cases i with
    | zero => simp [formatFaces]
    | succ n =>
      simp only [formatFaces, List.getElem?_cons_succ, ih (start + 1) n]
      have : start + 1 + n = start + (n + 1) := by omega
      rw [this]

theorem mem_formatFaces (fs : List FFace) :
    ∀ start r, r ∈ formatFaces start fs → ∃ i f, r = formatOne i f := by
  induction fs with
  | nil => intro start r h; exact absurd h (List.not_mem_nil r)
  | cons f t ih =>
    intro start r h
    rcases List.mem_cons.mp h with h | h
    · exact ⟨start, f, h⟩
    · exact ih (start + 1) r h

/-- C5: the formatter returns the empty list for an absent or empty faces
array, and otherwise one AnalysisResult per face in the same order, the
entry at position i being produced from the face at position i with a
1-based faceIndex i + 1. -/
theorem c5_formatter_one_per_face :
    formatAnalysisResults none = [] ∧
    formatAnalysisResults (some []) = [] ∧
    (∀ fs, (formatAnalysisResults (some fs)).length = fs.length) ∧
    (∀ fs (i : Nat), (formatAnalysisResults (some fs))[i]? =
      (fs[i]?).map (fun f => formatOne i f)) ∧
    (∀ fs (i : Nat) r, (formatAnalysisResults (some fs))[i]? = some r →
      r.faceIndex = i + 1) := by
  have hmain : ∀ fs (i : Nat), (formatAnalysisResults (some fs))[i]? =
      (fs[i]?).map (fun f => formatOne i f) := by
    intro fs i
    cases fs with
    | nil => simp [formatAnalysisResults]
    | cons f t =>
      have : formatAnalysisResults (some (f :: t)) = formatFaces 0 (f :: t) := by
        simp [formatAnalysisResults]
      rw [this]
      have h0 := formatFaces_getElem? (f :: t) 0 i
      simpa using h0
  refine ⟨rfl, rfl, ?_, hmain, ?_⟩
  · intro fs
    cases fs with
    | nil => rfl
    | cons f t =>
      have : formatAnalysisResults (some (f :: t)) = formatFaces 0 (f :: t) := by
        simp [formatAnalysisResults]
      rw [this, formatFaces_length]
  · intro fs i r hr
    rw [hmain fs i] at hr
    rcases hf : fs[i]? with - | f
    · rw [hf] at hr; exact absurd hr (by simp)
    · rw [hf] at hr
      have hr2 : some (formatOne i f) = some r := hr
      injection hr2 with h
      rw [← h]
      rfl

/-- C5 (witness): a concrete two-face session, instantiating the theorem —
the empty cases, the length, and the entry at index 1 coming from the
second face. -/
theorem c5_witness :
    formatAnalysisResults none = [] ∧
    (formatAnalysisResults
        (some [⟨1/2, "", none, none, none, []⟩, ⟨1/3, "ok", none, some "p", none, []⟩])).length
      = 2 ∧
    (formatAnalysisResults
        (some [⟨1/2, "", none, none, none, []⟩, ⟨1/3, "ok", none, some "p", none, []⟩]))[1]?
      = some (formatOne 1 ⟨1/3, "ok", none, some "p", none, []⟩) :=
  ⟨c5_formatter_one_per_face.1,
    c5_formatter_one_per_face.2.2.1 _,
    by
      have h := c5_formatter_one_per_face.2.2.2.1
        [⟨1/2, "", none, none, none, []⟩, ⟨1/3, "ok", none, some "p", none, []⟩] 1
      simpa using h⟩

/-- C6: every AnalysisResult the formatter produces satisfies
ensembleProbability.real + ensembleProbability.fake = 1 exactly, the fake
component being constructed as 1 minus the real component. -/
theorem c6_ensemble_complement (faces : Option (List FFace)) (r : AnalysisResult)
    (hr : r ∈ formatAnalysisResults faces) :
    r.ensembleProbability.real + r.ensembleProbability.fake = 1 := by
  rcases faces with - | fs
  · exact absurd hr (List.not_mem_nil r)
  · rcases fs with - | ⟨f, t⟩
    · exact absurd hr (List.not_mem_nil r)
    · have : formatAnalysisResults (some (f :: t)) = formatFaces 0 (f :: t) := by
        simp [formatAnalysisResults]
      rw [this] at hr
      obtain ⟨i, g, hg⟩ := mem_formatFaces (f :: t) 0 r hr
      rw [hg]
      rcases ha : g.ansamble with - | a <;> simp [formatOne, ha]

/-- C6 (witness): the theorem applied to a concrete one-face session. -/
theorem c6_witness :
    (formatOne 0 (⟨3/10, "", none, none, none, []⟩ : FFace)).ensembleProbability.real +
      (formatOne 0 (⟨3/10, "", none, none, none, []⟩ : FFace)).ensembleProbability.fake = 1 :=
  c6_ensemble_complement (some [⟨3/10, "", none, none, none, []⟩])
    (formatOne 0 ⟨3/10, "", none, none, none, []⟩)
    (by simp [formatAnalysisResults, formatFaces])

/-- C7 (counterexample): a face carrying ansamble 0.92, no per-model score
field and no verdict. The formatter outputs the verdict "Probably Real"
but an empty modelProbabilities list — not the claimed 10 neutral
entries, because the ten-slot branch requires at least one key starting
with "is_real_model_". -/
theorem c7_counterexample :
    (formatAnalysisResults (some [⟨0, "", some (92/100), some "x", none, []⟩])).map
      (fun r => (r.verdict, r.modelProbabilities.length)) = [("Probably Real", 0)] := by
  simp only [formatAnalysisResults, formatFaces, formatOne, hasModelKeys, verdictFor]
  norm_num [jsOr, sStartsWith, leadsL]

/-- C7 (amended): for a face carrying ansamble = 0.92, no per-model score
fields and no upstream verdict, the formatter outputs verdict
"Probably Real" and an empty modelProbabilities list (the ten-slot
0.5-default list is produced only when at least one is_real_model_ key is
present on the face). -/
theorem c7_verdict_no_models :
    formatAnalysisResults (some [⟨0, "", some (92/100), some "x", none, []⟩]) =
      [⟨1, "x", ⟨92/100, 2/25⟩, [], "Probably Real"⟩] := by
  simp only [formatAnalysisResults, formatFaces, formatOne, hasModelKeys, verdictFor]
  norm_num [jsOr, sStartsWith, leadsL]
  exact fun h => h.symm

/-- C8: whenever a face carries at least one is_real_model_ key, the
formatter emits exactly 10 model entries, positionally labeled
"Model 1".."Model 10", and every absent is_real_model_N field is
defaulted to the neutral 0.5 real / 0.5 fake probability. -/
theorem c8_ten_slot_default (i : Nat) (face : FFace)
    (h : hasModelKeys face.fields = true) :
    (formatOne i face).modelProbabilities.length = 10 ∧
    ∀ k, k < 10 →
      ((formatOne i face).modelProbabilities[k]?.map ModelProb.model =
          some ("Model " ++ Nat.repr (k + 1)) ∧
        (lookupField face.fields ("is_real_model_" ++ Nat.repr (k + 1)) = none →
          (formatOne i face).modelProbabilities[k]?.map ModelProb.realProbability =
              some (1/2) ∧
            (formatOne i face).modelProbabilities[k]?.map ModelProb.fakeProbability =
              some (1/2))) := by
  have hm : (formatOne i face).modelProbabilities = tenModels face.fields := by
    simp [formatOne, h]
  constructor
  · rw [hm]
    simp [tenModels]
  · intro k hk
    rw [hm]
    have hsome : (tenModels face.fields)[k]? =
        some ⟨"Model " ++ Nat.repr (k + 1),
          (lookupField face.fields ("is_real_model_" ++ Nat.repr (k + 1))).getD (1/2),
          1 - (lookupField face.fields ("is_real_model_" ++ Nat.repr (k + 1))).getD (1/2)⟩ := by
      simp only [tenModels, List.getElem?_ofFn, List.ofFnNthVal, hk, dif_pos]
    rw [hsome]
    refine ⟨by simp, ?_⟩
    intro hnone
    rw [hnone]
    norm_num

/-- C8 (witness): a face whose only per-model key is is_real_model_2 still
yields 10 entries, and the absent slot 5 reads 0.5/0.5. -/
theorem c8_witness :
    (formatOne 0 (⟨0, "v", none, none, none, [("is_real_model_2", 9/10)]⟩ : FFace)).modelProbabilities.length
      = 10 ∧
    (formatOne 0 (⟨0, "v", none, none, none, [("is_real_model_2", 9/10)]⟩ : FFace)).modelProbabilities[4]?.map
        ModelProb.realProbability = some (1/2) :=
  ⟨(c8_ten_slot_default 0 ⟨0, "v", none, none, none, [("is_real_model_2", 9/10)]⟩
      (by decide)).1,
    (((c8_ten_slot_default 0 ⟨0, "v", none, none, none, [("is_real_model_2", 9/10)]⟩
      (by decide)).2 4 (by omega)).2 (by decide)).1⟩

/-- C10: when any key starting with is_real_model_ exists on the face —
even one whose number lies outside 1..10 — the formatter emits the fixed
ten-slot list and ignores the metrics map entirely (the output does not
change when the metrics map is replaced by none); the metrics map drives
the output only when no such key exists at all. -/
theorem c10_model_keys_shadow_metrics (i : Nat) (face : FFace) :
    (hasModelKeys face.fields = true →
      ∀ ms, (formatOne i { face with metrics := some ms }).modelProbabilities =
          (formatOne i { face with metrics := none }).modelProbabilities ∧
        (formatOne i face).modelProbabilities.length = 10) ∧
    (hasModelKeys face.fields = false →
      ∀ ms, face.metrics = some ms →
        (formatOne i face).modelProbabilities =
          ms.map fun kv => ⟨kv.2.name, kv.2.probability, 1 - kv.2.probability⟩) := by
  constructor
  · intro h ms
    constructor
    · simp [formatOne, hasModelKeys] at *
      simp [h]
    · have hm : (formatOne i face).modelProbabilities = tenModels face.fields := by
        simp [formatOne, h]
      rw [hm]
      simp [tenModels]
  · intro h ms hms
    simp [formatOne, h, hms]

/-- C10 (witness): a face whose only model key is "is_real_model_11"
(outside 1..10) and which also carries a metrics map: the ten-slot branch
wins, the metrics map is ignored. -/
theorem c10_witness :
    (formatOne 0
        ({ realProbability := 0, verdict := "v", ansamble := none, face_path := none,
           metrics := some [("a", ⟨"MetricA", 1/3⟩)],
           fields := [("is_real_model_11", 1/4)] } : FFace)).modelProbabilities =
      (formatOne 0
        ({ realProbability := 0, verdict := "v", ansamble := none, face_path := none,
           metrics := none,
           fields := [("is_real_model_11", 1/4)] } : FFace)).modelProbabilities ∧
    (formatOne 0
        ({ realProbability := 0, verdict := "v", ansamble := none, face_path := none,
           metrics := some [("a", ⟨"MetricA", 1/3⟩)],
           fields := [("is_real_model_11", 1/4)] } : FFace)).modelProbabilities.length = 10 :=
  (c10_model_keys_shadow_metrics 0
    { realProbability := 0, verdict := "v", ansamble := none, face_path := none,
      metrics := some [("a", ⟨"MetricA", 1/3⟩)],
      fields := [("is_real_model_11", 1/4)] }).1 (by decide) [("a", ⟨"MetricA", 1/3⟩)]

/-! ## Proxy-route theorems -/

/-- C2 (counterexample): the status endpoint takes a session identifier but
performs no validation: for the malformed identifier ".." (which fails
the UUID grammar and contains a traversal sequence) it still issues the
upstream request and returns the upstream's 200, not a 400. -/
theorem c2_counterexample :
    isValidUuid ".." = false ∧
    sContains ".." ".." = true ∧
    (statusRoute ".." (StatusUp.ok "processing")).1.status = 200 ∧
    (statusRoute ".." (StatusUp.ok "processing")).2 =
      ["https://api.proofly.ai/api/../status"] := by
  refine ⟨by decide, by decide, rfl, rfl⟩

/-- C2 (amended): the face endpoint returns 400 without any upstream call
for every session identifier failing the UUID grammar (which subsumes
identifiers containing ".." or "%2e%2e"); the status endpoint, by
contrast, validates nothing and always forwards the identifier upstream. -/
theorem c2_face_route_rejects_malformed (U F : String) (sess : SessFetch)
    (img : ImgFetch) (h : isValidUuid U = false) :
    faceRoute ["", "api", "proofly", "session", U, "face", F] sess img =
      (FaceResp.invalid400, []) := by
  simp [faceRoute, h]

/-- C2 (witness): the identifier ".." with face index "0" is rejected with
400 and no upstream call, by the amended theorem. -/
theorem c2_witness :
    faceRoute ["", "api", "proofly", "session", "..", "face", "0"]
        (SessFetch.ok (some [⟨some "/storage/faces/a_0.png"⟩])) (ImgFetch.ok none) =
      (FaceResp.invalid400, []) :=
  c2_face_route_rejects_malformed ".." "0"
    (SessFetch.ok (some [⟨some "/storage/faces/a_0.png"⟩])) (ImgFetch.ok none) (by decide)

/-- C3 (counterexample): "192.168.1.1" is a private-range address in the
spec's sense, yet the upload-url route — whose isPrivateIp knows only the
two loopback literals — fetches the remote image and forwards the upload,
answering 200 rather than rejecting with 400. -/
theorem c3_counterexample :
    specPrivateRangeIp "192.168.1.1" = true ∧
    isPrivateIp "192.168.1.1" = false ∧
    uploadUrlRoute
        ⟨some "http://internal.example/cam.jpg", some "http:", some "192.168.1.1",
          UrlFetchRes.ok true (some "image/jpeg"), ApiUploadRes.ok "u1"⟩ =
      (⟨200, "", none⟩, [UrlCall.imageFetch, UrlCall.apiUpload]) := by
  refine ⟨by decide, by decide, by decide⟩

/-- C3 (amended): whenever the hostname resolution yields a loopback
address (127.0.0.1 or ::1) — or fails altogether — the upload-url route
answers 400 without performing any outbound fetch; other private-range
addresses are not blocked. -/
theorem c3_loopback_rejected_before_fetch (inp : UrlInput)
    (h : inp.resolvedIp = none ∨ inp.resolvedIp = some "127.0.0.1" ∨
      inp.resolvedIp = some "::1") :
    (uploadUrlRoute inp).1.status = 400 ∧ (uploadUrlRoute inp).2 = [] := by
  obtain ⟨url, proto, rip, fetch, upload⟩ := inp
  simp only at h
  rcases url with - | u
  · exact ⟨rfl, rfl⟩
  · by_cases hu : u = ""
    · simp [uploadUrlRoute, hu]
    · by_cases hp : (match proto with
        | some p => p == "http:" || p == "https:"
        | none => false) = true
      · rcases h with h | h | h <;> subst h <;>
          simp [uploadUrlRoute, hu, hp, isPrivateIp]
      · simp [uploadUrlRoute, hu, hp]

/-- C3 (witness): a URL resolving to 127.0.0.1 is rejected with 400 and no
fetch, by the amended theorem. -/
theorem c3_witness :
    (uploadUrlRoute
        ⟨some "http://localhost/x.png", some "http:", some "127.0.0.1",
          UrlFetchRes.ok true (some "image/png"), ApiUploadRes.ok "u"⟩).1.status = 400 ∧
    (uploadUrlRoute
        ⟨some "http://localhost/x.png", some "http:", some "127.0.0.1",
          UrlFetchRes.ok true (some "image/png"), ApiUploadRes.ok "u"⟩).2 = [] :=
  c3_loopback_rejected_before_fetch
    ⟨some "http://localhost/x.png", some "http:", some "127.0.0.1",
      UrlFetchRes.ok true (some "image/png"), ApiUploadRes.ok "u"⟩
    (Or.inr (Or.inl rfl))

set_option maxRecDepth 8192 in
/-- C9 (counterexample): on an upstream failure, the status endpoint relays
the upstream error body verbatim — here a 201-character body, exceeding
the claimed 200-character cap — as its own error field. -/
theorem c9_counterexample :
    (statusRoute uuid0
        (StatusUp.errResp (some 502) (some (String.mk (List.replicate 201 'a'))) "m")).1.errorBody
      = some (String.mk (List.replicate 201 'a')) ∧
    200 < (String.mk (List.replicate 201 'a')).length := by
  refine ⟨?_, by decide⟩
  decide

/-- C9 (amended): in the upload-url route, an upstream upload failure whose
response body is a string (or buffer) is surfaced with the detail cut to
at most 200 characters; object bodies, however, are relayed stringified
without truncation, and the status endpoint relays the upstream error
body verbatim. -/
theorem c9_string_details_truncated (u proto ip : String) (ct : Option String)
    (st : Option Nat) (msg s : String) (hu : ¬ u = "")
    (hp : (proto == "http:" || proto == "https:") = true)
    (hip : isPrivateIp ip = false) (hlen : u.length ≤ 512)
    (hct : sStartsWith (jsOr ct "") "image/" = true) :
    (uploadUrlRoute
        ⟨some u, some proto, some ip, UrlFetchRes.ok true ct,
          ApiUploadRes.errResp st (some (UpData.str s)) msg⟩).1.details =
      some (jsTake200 s) ∧
    (jsTake200 s).length ≤ 200 := by
  constructor
  · have hlen2 : ¬ (512 < u.length) := by omega
    simp [uploadUrlRoute, hu, hp, hip, hlen2, hct]
  · show (s.data.take 200).length ≤ 200
    rw [List.length_take]
    exact Nat.min_le_left 200 s.data.length

/-- C9 (witness): a concrete 250-character upstream string body is cut to
200 characters, by the amended theorem. -/
theorem c9_witness :
    (uploadUrlRoute
        ⟨some "http://example.com/a.jpg", some "http:", some "93.184.216.34",
          UrlFetchRes.ok true (some "image/jpeg"),
          ApiUploadRes.errResp (some 502) (some (UpData.str (String.mk (List.replicate 250 'd')))) "m"⟩).1.details =
      some (jsTake200 (String.mk (List.replicate 250 'd'))) ∧
    (jsTake200 (String.mk (List.replicate 250 'd'))).length ≤ 200 :=
  c9_string_details_truncated "http://example.com/a.jpg" "http:" "93.184.216.34"
    (some "image/jpeg") (some 502) "m" (String.mk (List.replicate 250 'd'))
    (by decide) (by decide) (by decide) (by decide) (by decide)

/-! ## Lemmas about the face lookup -/

theorem leadsL_append (pre : List Char) :
    ∀ s, leadsL pre s = true → ∃ t, s = pre ++ t := by
  induction pre with
  | nil => intro s _; exact ⟨s, rfl⟩
  | cons a as ih =>
    intro s h
    cases s with
    | nil => exact absurd h (by simp [leadsL])
    | cons b bs =>
      simp only [leadsL, Bool.and_eq_true, beq_iff_eq] at h
      obtain ⟨hab, htail⟩ := h
      obtain ⟨t, ht⟩ := ih bs htail
      exact ⟨t, by rw [hab, ht, List.cons_append]⟩

theorem dropWhile_takeWhile_ne_nil :
    ∀ l : List Char, (∃ c, c ∈ l ∧ (c == '/') = false) →
      (l.dropWhile (fun c => c == '/')).takeWhile (fun c => !(c == '/')) ≠ [] := by
  intro l
  induction l with
  | nil => rintro ⟨c, hc, -⟩; exact absurd hc (List.not_mem_nil c)
  | cons a t ih =>
    rintro ⟨c, hc, hcf⟩
    rcases ha : a == '/' with - | -
    · rw [List.dropWhile_cons_of_neg (by simp [ha])]
      rw [List.takeWhile_cons_of_pos (by simp [ha])]
      simp
    · rw [List.dropWhile_cons_of_pos (by simp [ha])]
      apply ih
      refine ⟨c, ?_, hcf⟩
      rcases List.mem_cons.mp hc with he | he
      · exfalso
        rw [he] at hcf
        rw [ha] at hcf
        exact absurd hcf (by decide)
      · exact he

theorem basenameStr_ne_empty (p : String)
    (h : ∃ c, c ∈ p.data ∧ (c == '/') = false) : basenameStr p ≠ "" := by
  obtain ⟨c, hc, hcf⟩ := h
  have hrev : c ∈ p.data.reverse := List.mem_reverse.mpr hc
  have htw := dropWhile_takeWhile_ne_nil p.data.reverse ⟨c, hrev, hcf⟩
  have hne : p.data.reverse.dropWhile (fun c => c == '/') ≠ [] := by
    intro h0
    apply htw
    rw [h0]
    simp
  rw [basenameStr, if_neg hne]
  intro hcontra
  have hinj : ((p.data.reverse.dropWhile (fun c => c == '/')).takeWhile
      (fun c => !(c == '/'))).reverse = [] := by
    have := congrArg String.data hcontra
    simpa using this
  rw [List.reverse_eq_nil_iff] at hinj
  exact htw hinj

theorem facePathAllowed_mem (p : String) (h : facePathAllowed p = true) :
    ∃ c, c ∈ p.data ∧ (c == '/') = false := by
  have hor : (sStartsWith p "./storage/original/" || sStartsWith p "/storage/original/" ||
      sStartsWith p "/storage/faces/") = true := by
    unfold facePathAllowed at h
    simp only [Bool.and_eq_true] at h
    exact h.1.1
  simp only [Bool.or_eq_true] at hor
  rcases hor with hor2 | hpre
  · rcases hor2 with hpre | hpre
    · obtain ⟨t, ht⟩ := leadsL_append _ _ hpre
      refine ⟨'s', ?_, by decide⟩
      rw [ht]
      exact List.mem_append.mpr (Or.inl (by decide))
    · obtain ⟨t, ht⟩ := leadsL_append _ _ hpre
      refine ⟨'s', ?_, by decide⟩
      rw [ht]
      exact List.mem_append.mpr (Or.inl (by decide))
  · obtain ⟨t, ht⟩ := leadsL_append _ _ hpre
    refine ⟨'s', ?_, by decide⟩
    rw [ht]
    exact List.mem_append.mpr (Or.inl (by decide))

theorem faceMatches_spec (idx : Nat) (f : ProxyFace) (h : faceMatches idx f = true) :
    ∃ p, f.face_path = some p ∧ ¬ p = "" ∧ facePathAllowed p = true := by
  rcases hp : f.face_path with - | p
  · simp only [faceMatches, hp] at h
    exact absurd h (by decide)
  · simp only [faceMatches, hp] at h
    refine ⟨p, rfl, ?_, ?_⟩
    · intro he
      rw [if_pos he] at h
      exact absurd h (by decide)
    · by_cases hal : facePathAllowed p = true
      · exact hal
      · exfalso
        have hne : ¬ p = "" := by
          intro he
          rw [if_pos he] at h
          exact absurd h (by decide)
        rw [if_neg hne] at h
        have hb : (!facePathAllowed p) = true := by
          rcases hb2 : facePathAllowed p with - | -
          · simp
          · exact absurd hb2 hal
        rw [if_pos hb] at h
        exact absurd h (by decide)

/-- C4: for every face list and all-digits face index, the face endpoint
(on a well-formed path with a valid identifier, with the upstream session
fetch and image fetch succeeding) serves the face image exactly when some
face's face_path passes `faceMatches` — it starts with an allowed storage
location, contains neither ".." nor "//", and its trailing numeric
segment equals the requested index — and returns 404 exactly otherwise. -/
theorem c4_face_lookup (F : String) (hF : digitsOnly F = true)
    (faces : List ProxyFace) (ct : Option String) :
    ((faceRoute ["", "api", "proofly", "session", uuid0, "face", F]
          (SessFetch.ok (some faces)) (ImgFetch.ok ct)).1 =
        FaceResp.image200 (jsOr ct "image/jpeg") ↔
      ∃ f ∈ faces, faceMatches (natOfDigits F.data) f = true) ∧
    ((faceRoute ["", "api", "proofly", "session", uuid0, "face", F]
          (SessFetch.ok (some faces)) (ImgFetch.ok ct)).1 =
        FaceResp.notFound404 ↔
      ¬ ∃ f ∈ faces, faceMatches (natOfDigits F.data) f = true) := by
  have h1 : isValidUuid uuid0 = true := by decide
  have h2 : sContains uuid0 ".." = false := by decide
  have h3 : sContains (lcStr uuid0) "%2e%2e" = false := by decide
  have h4 : ¬ (uuid0 = "") := by decide
  have h5 : strictPathOk ["", "api", "proofly", "session", uuid0, "face", F] = true := by
    have he : strictPathOk ["", "api", "proofly", "session", uuid0, "face", F] =
        (("" : String) == "" && lcStr "api" == "api" && lcStr "proofly" == "proofly" &&
          lcStr "session" == "session" && uuid0.data.length == 36 &&
          uuid0.data.all hexDash && lcStr "face" == "face" && digitsOnly F) := rfl
    rw [he, hF]
    decide
  have hred : faceRoute ["", "api", "proofly", "session", uuid0, "face", F]
      (SessFetch.ok (some faces)) (ImgFetch.ok ct) =
      (if faces.length = 0 then (FaceResp.notFound404, [UpCall.sessionInfo uuid0])
       else
         match faces.find? (faceMatches (natOfDigits F.data)) with
         | none => (FaceResp.notFound404, [UpCall.sessionInfo uuid0])
         | some f =>
           match f.face_path with
           | none => (FaceResp.notFound404, [UpCall.sessionInfo uuid0])
           | some p =>
             if p = "" then (FaceResp.notFound404, [UpCall.sessionInfo uuid0])
             else if basenameStr p = "" then
               (FaceResp.serverError500, [UpCall.sessionInfo uuid0])
             else
               (FaceResp.image200 (jsOr ct "image/jpeg"),
                 [UpCall.sessionInfo uuid0, UpCall.faceImage (basenameStr p)])) := by
    simp [faceRoute, h1, h2, h3, h4, h5, hF]
  rw [hred]
  rcases hfind : faces.find? (faceMatches (natOfDigits F.data)) with - | f
  · have hnone : ∀ x ∈ faces, ¬ faceMatches (natOfDigits F.data) x = true :=
      fun x hx => by
        have := List.find?_eq_none.mp hfind x hx
        simpa using this
    have hnex : ¬ ∃ f ∈ faces, faceMatches (natOfDigits F.data) f = true := by
      rintro ⟨f, hf, hm⟩
      exact hnone f hf hm
    by_cases hlen : faces.length = 0
    · rw [if_pos hlen]
      exact ⟨by simp [hnex], by simp [hnex]⟩
    · rw [if_neg hlen]
      exact ⟨by simp [hnex], by simp [hnex]⟩
  · have hmatch : faceMatches (natOfDigits F.data) f = true := List.find?_some hfind
    have hmem : f ∈ faces := List.mem_of_find?_eq_some hfind
    have hex : ∃ g ∈ faces, faceMatches (natOfDigits F.data) g = true :=
      ⟨f, hmem, hmatch⟩
    have hlen : ¬ faces.length = 0 := by
      intro h0
      rw [List.length_eq_zero] at h0
      rw [h0] at hmem
      exact absurd hmem (List.not_mem_nil f)
    obtain ⟨p, hp, hpne, hpal⟩ := faceMatches_spec _ _ hmatch
    have hbn : ¬ basenameStr p = "" :=
      basenameStr_ne_empty p (facePathAllowed_mem p hpal)
    rw [if_neg hlen]
    exact ⟨by simp [hp, hpne, hbn, hex], by simp [hp, hpne, hbn, hex]⟩

/-- C4 (witness): the spec scenario — a session whose only face has
face_path "/storage/faces/abc_3.png" serves the image for index "3" and
returns 404 for index "2". -/
theorem c4_witness :
    (faceRoute ["", "api", "proofly", "session", uuid0, "face", "3"]
        (SessFetch.ok (some [⟨some "/storage/faces/abc_3.png"⟩]))
        (ImgFetch.ok (some "image/png"))).1 = FaceResp.image200 "image/png" ∧
    (faceRoute ["", "api", "proofly", "session", uuid0, "face", "2"]
        (SessFetch.ok (some [⟨some "/storage/faces/abc_3.png"⟩]))
        (ImgFetch.ok (some "image/png"))).1 = FaceResp.notFound404 :=
  ⟨(c4_face_lookup "3" (by decide) [⟨some "/storage/faces/abc_3.png"⟩]
      (some "image/png")).1.mpr (by decide),
    (c4_face_lookup "2" (by decide) [⟨some "/storage/faces/abc_3.png"⟩]
      (some "image/png")).2.mpr (by decide)⟩

end ApiChecker
